import Mathlib

/-!
Verification development for the `team-bath-rov-software` repository.

Shallow embedding of the parts of the source the claims are about:

* `src/video-processor/src/back_pressure_queue.py` — the bounded frame queue
  (`BackpressureQueue.put` / `get`);
* `src/telemetry-processor/src/aggregation/aggregator.py` — the time-window
  aggregator (`TimeWindowAggregator.add` / `_emit_aggregation`);
* `src/telemetry-processor/src/filters/kalman_filter.py` — the 1-D Kalman
  filter (`KalmanFilter.apply`);
* `src/common/common/mqtt/publisher.py` — the schema-gated publish operation;
* `src/telemetry-processor/src/telemetry_processor.py` — processor
  construction and the sample-routing path;
* `src/video-processor/src/mpegts/mpegts_client.py` — the reconnect backoff;
* `src/video-processor/src/mpegts/websocket_broadcaster.py` — WebSocket fan-out.

Python floats are modelled by `ℚ` (the arithmetic in the claims is exact on the
rationals involved), Python exceptions by explicit error values, dictionaries
by association lists, and mutation by explicit state passing.
-/

namespace ROV

/-! ### Backpressure queue — `src/video-processor/src/back_pressure_queue.py`

`BackpressureQueue.__init__` wraps a `queue.Queue(maxsize=max_queue_size)` and a
`dropped_frames` counter.  The wrapped FIFO is modelled by a list whose head is
the oldest element. -/

structure BackpressureQueue (α : Type) where
  maxsize : Nat
  items : List α
  dropped_frames : Nat
deriving Repr, DecidableEq

/-- Python `queue.Queue` is full (so `put_nowait` raises `queue.Full`) exactly
when `maxsize > 0` and at least `maxsize` items are held; `maxsize = 0` means
an unbounded queue in Python. -/
def BackpressureQueue.isFull {α : Type} (q : BackpressureQueue α) : Bool :=
  decide (0 < q.maxsize) && decide (q.maxsize ≤ q.items.length)

/-- `queue.Queue.put_nowait`: `none` models the `queue.Full` exception. -/
def BackpressureQueue.put_nowait {α : Type} (q : BackpressureQueue α) (item : α) :
    Option (BackpressureQueue α) :=
  if q.isFull then none else some { q with items := q.items ++ [item] }

/-- The drain loop of `BackpressureQueue.put` (lines 23-28):
`while not self.queue.empty(): self.queue.get_nowait(); dropped_count += 1`.
Returns the remaining items and the number drained. -/
def drainAll {α : Type} : List α → List α × Nat
  | [] => ([], 0)
  | _ :: rest =>
    let r := drainAll rest
    (r.1, r.2 + 1)

/-- `BackpressureQueue.put` (lines 15-41): try `put_nowait`; on `queue.Full`
drain every enqueued item, add the count to `dropped_frames`, then retry
`put_nowait` (a second `queue.Full` only adds one more drop — unreachable
sequentially).  The `dropped_count % 1000` log line is observational only. -/
def BackpressureQueue.put {α : Type} (q : BackpressureQueue α) (item : α) :
    BackpressureQueue α :=
  match q.put_nowait item with
  | some q' => q'
  | none =>
    let d := drainAll q.items
    let q1 : BackpressureQueue α :=
      { q with items := d.1, dropped_frames := q.dropped_frames + d.2 }
    match q1.put_nowait item with
    | some q2 => q2
    | none => { q1 with dropped_frames := q1.dropped_frames + 1 }

/-- `BackpressureQueue.get` (lines 43-46): the wrapped blocking
`queue.Queue.get(timeout)`; `none` models the `queue.Empty` timeout signal. -/
def BackpressureQueue.get {α : Type} (q : BackpressureQueue α) :
    Option (α × BackpressureQueue α) :=
  match q.items with
  | [] => none
  | x :: rest => some (x, { q with items := rest })

theorem drainAll_eq {α : Type} (l : List α) : drainAll l = ([], l.length) := by
  induction l with
  | nil => rfl
  | cons x rest ih => simp [drainAll, ih]

/-- Characterization of `put`, shared by the claim theorems: on a full queue
every enqueued item is evicted, the dropped counter grows by the number
evicted, and the new item is admitted; otherwise the item is appended. -/
theorem BackpressureQueue.put_eq {α : Type} (q : BackpressureQueue α) (item : α) :
    q.put item =
      if q.isFull then
        { maxsize := q.maxsize, items := [item],
          dropped_frames := q.dropped_frames + q.items.length }
      else
        { maxsize := q.maxsize, items := q.items ++ [item],
          dropped_frames := q.dropped_frames } := by
  by_cases hf : q.isFull
  · have hmax : 0 < q.maxsize := by
      have := hf
      unfold BackpressureQueue.isFull at this
      simp only [Bool.and_eq_true, decide_eq_true_eq] at this
      exact this.1
    have h1 : q.put_nowait item = none := by
      simp [BackpressureQueue.put_nowait, hf]
    have h2 :
        BackpressureQueue.put_nowait
          { q with items := ([] : List α),
                   dropped_frames := q.dropped_frames + q.items.length } item =
        some { maxsize := q.maxsize, items := [item],
               dropped_frames := q.dropped_frames + q.items.length } := by
      simp [BackpressureQueue.put_nowait, BackpressureQueue.isFull,
        Nat.pos_iff_ne_zero.mp hmax]
    simp only [BackpressureQueue.put, h1, drainAll_eq, hf, if_pos]
    simp [h2]
  · simp [BackpressureQueue.put, BackpressureQueue.put_nowait, hf]

/-! #### Interleaved put/get traces (for the conservation invariant C8) -/

inductive QueueOp (α : Type) where
  | put (a : α)
  | get
deriving Repr, DecidableEq

/-- A queue together with the observation counters of spec §8.1:
`total_puts` counts `put` calls, `total_gets` counts `get` calls that
returned an item. -/
structure QueueTrace (α : Type) where
  q : BackpressureQueue α
  total_puts : Nat
  total_gets : Nat
deriving Repr, DecidableEq

def QueueTrace.step {α : Type} (t : QueueTrace α) : QueueOp α → QueueTrace α
  | QueueOp.put a => { t with q := t.q.put a, total_puts := t.total_puts + 1 }
  | QueueOp.get =>
    match t.q.get with
    | none => t
    | some (_, q') => { t with q := q', total_gets := t.total_gets + 1 }

def QueueTrace.run {α : Type} (t : QueueTrace α) (ops : List (QueueOp α)) :
    QueueTrace α :=
  ops.foldl QueueTrace.step t

/-- The invariant of claim C8, relative to a capacity `C`. -/
def QueueInv {α : Type} (C : Nat) (t : QueueTrace α) : Prop :=
  t.q.maxsize = C ∧ t.q.items.length ≤ C ∧
    t.total_puts = t.total_gets + t.q.items.length + t.q.dropped_frames

theorem QueueInv.step {α : Type} {C : Nat} (hC : 0 < C) {t : QueueTrace α}
    (h : QueueInv C t) (op : QueueOp α) : QueueInv C (t.step op) := by
  obtain ⟨hmax, hlen, hcons⟩ := h
  cases op with
  | put a =>
    unfold QueueTrace.step
    rw [QueueInv]
    simp only [BackpressureQueue.put_eq]
    by_cases hf : t.q.isFull
    · simp only [hf, if_pos]
      refine ⟨hmax, by simpa using hC, ?_⟩
      simp only [List.length_cons, List.length_nil]
      omega
    · rw [if_neg hf]
      have hnf : ¬(0 < t.q.maxsize ∧ t.q.maxsize ≤ t.q.items.length) := by
        intro hcontra
        unfold BackpressureQueue.isFull at hf
        simp only [Bool.and_eq_true, decide_eq_true_eq] at hf
        exact hf hcontra
    -- not full with 0 < C means the length is strictly below C
      refine ⟨hmax, ?_, ?_⟩
      · simp only [List.length_append, List.length_cons, List.length_nil]
        omega
      · simp only [List.length_append, List.length_cons, List.length_nil]
        omega
  | get =>
    unfold QueueTrace.step
    cases hq : t.q.get with
    | none => exact ⟨hmax, hlen, hcons⟩
    | some p =>
      obtain ⟨x, q'⟩ := p
      unfold BackpressureQueue.get at hq
      cases hitems : t.q.items with
      | nil => rw [hitems] at hq; exact absurd hq (by simp)
      | cons y rest =>
        rw [hitems] at hq
        simp only [Option.some.injEq, Prod.mk.injEq] at hq
        obtain ⟨-, hq'⟩ := hq
        rw [QueueInv, ← hq']
        refine ⟨hmax, ?_, ?_⟩
        · simp only
          rw [hitems] at hlen
          simp only [List.length_cons] at hlen
          omega
        · simp only
          rw [hitems] at hcons
          simp only [List.length_cons] at hcons
          omega

theorem QueueInv.run {α : Type} {C : Nat} (hC : 0 < C) {t : QueueTrace α}
    (h : QueueInv C t) (ops : List (QueueOp α)) : QueueInv C (t.run ops) := by
  induction ops generalizing t with
  | nil => exact h
  | cons op rest ih => exact ih (h.step hC op)

/-- C8: Queue conservation invariant.  For any sequence of interleaved puts and
gets on a backpressure queue with capacity `C > 0`, starting empty, the size
never exceeds `C` (the final state of an arbitrary sequence covers every
observation point, since every prefix is itself such a sequence), and
`total_puts = total_gets + current_size + dropped_count`. -/
theorem C8_queue_conservation {α : Type} (C : Nat) (hC : 0 < C)
    (ops : List (QueueOp α)) :
    (QueueTrace.run ⟨⟨C, [], 0⟩, 0, 0⟩ ops).q.items.length ≤ C ∧
      (QueueTrace.run ⟨⟨C, [], 0⟩, 0, 0⟩ ops).total_puts =
        (QueueTrace.run ⟨⟨C, [], 0⟩, 0, 0⟩ ops).total_gets +
          (QueueTrace.run ⟨⟨C, [], 0⟩, 0, 0⟩ ops).q.items.length +
          (QueueTrace.run ⟨⟨C, [], 0⟩, 0, 0⟩ ops).q.dropped_frames := by
  have h0 : QueueInv C (⟨⟨C, [], 0⟩, 0, 0⟩ : QueueTrace α) := by
    refine ⟨rfl, by simp, by simp⟩
  exact ⟨(QueueInv.run hC h0 ops).2.1, (QueueInv.run hC h0 ops).2.2⟩

/-- Witness for C8 at capacity `3` and a concrete interleaving. -/
theorem C8_queue_conservation_witness :
    (QueueTrace.run ⟨⟨3, [], 0⟩, 0, 0⟩
        [QueueOp.put 1, QueueOp.put 2, QueueOp.get, QueueOp.put 3,
         QueueOp.put 4, QueueOp.put 5, QueueOp.get]).q.items.length ≤ 3 ∧
      (QueueTrace.run ⟨⟨3, [], 0⟩, 0, 0⟩
        [QueueOp.put 1, QueueOp.put 2, QueueOp.get, QueueOp.put 3,
         QueueOp.put 4, QueueOp.put 5, QueueOp.get]).total_puts =
        (QueueTrace.run ⟨⟨3, [], 0⟩, 0, 0⟩
        [QueueOp.put 1, QueueOp.put 2, QueueOp.get, QueueOp.put 3,
         QueueOp.put 4, QueueOp.put 5, QueueOp.get]).total_gets +
          (QueueTrace.run ⟨⟨3, [], 0⟩, 0, 0⟩
        [QueueOp.put 1, QueueOp.put 2, QueueOp.get, QueueOp.put 3,
         QueueOp.put 4, QueueOp.put 5, QueueOp.get]).q.items.length +
          (QueueTrace.run ⟨⟨3, [], 0⟩, 0, 0⟩
        [QueueOp.put 1, QueueOp.put 2, QueueOp.get, QueueOp.put 3,
         QueueOp.put 4, QueueOp.put 5, QueueOp.get]).q.dropped_frames :=
  C8_queue_conservation (α := Nat) 3 (by decide)
    [QueueOp.put 1, QueueOp.put 2, QueueOp.get, QueueOp.put 3,
     QueueOp.put 4, QueueOp.put 5, QueueOp.get]

/-- C7: Put contract of the backpressure queue.  `put` is a total function of
the pre-state (it uses only the non-blocking `put_nowait`/`get_nowait`, so the
caller is never blocked): if the queue is full, all currently-enqueued items
are evicted, the dropped counter is incremented by exactly the number evicted,
and then the new item is admitted; otherwise the item is simply appended. -/
theorem C7_put_contract {α : Type} (q : BackpressureQueue α) (item : α) :
    q.put item =
      if q.isFull then
        { maxsize := q.maxsize, items := [item],
          dropped_frames := q.dropped_frames + q.items.length }
      else
        { maxsize := q.maxsize, items := q.items ++ [item],
          dropped_frames := q.dropped_frames } :=
  BackpressureQueue.put_eq q item

/-- C1 counterexample: putting `4` into the full capacity-3 queue `[1,2,3]`
evicts everything, so the next `get` returns `4` — the item just put, not a
strictly older one; and the S3 run (capacity 3, put 1..5) ends with size 2,
contents `[4, 5]` and `dropped_count = 3`, not size 1, `{5}`, 4. -/
theorem C1_counterexample :
    (((⟨3, [1, 2, 3], 0⟩ : BackpressureQueue Nat).put 4).get =
        some (4, ⟨3, [], 3⟩)) ∧
      (((((((⟨3, [], 0⟩ : BackpressureQueue Nat).put 1).put 2).put 3).put
            4).put 5).items = [4, 5] ∧
        ((((((⟨3, [], 0⟩ : BackpressureQueue Nat).put 1).put 2).put 3).put
            4).put 5).dropped_frames = 3 ∧
        ¬(((((((⟨3, [], 0⟩ : BackpressureQueue Nat).put 1).put 2).put 3).put
            4).put 5).items.length = 1 ∧
          ((((((⟨3, [], 0⟩ : BackpressureQueue Nat).put 1).put 2).put 3).put
            4).put 5).dropped_frames = 4)) := by
  decide

/-- C1 (amended): after `put(x)` into a full queue, every enqueued item is
evicted and the next `get()` returns `x` itself (for every capacity, including
capacities above 1); in scenario S3 (capacity 3, put 1,2,3,4,5 with no
intervening gets) the final state has size 2, contents `[4, 5]`, and
`dropped_count = 3`. -/
theorem C1_drop_all_next_get_returns_x {α : Type} (q : BackpressureQueue α)
    (x : α) (hf : q.isFull = true) :
    (q.put x).items = [x] ∧
      (q.put x).get =
        some (x, { maxsize := q.maxsize, items := [],
                   dropped_frames := q.dropped_frames + q.items.length }) ∧
      ((((((⟨3, [], 0⟩ : BackpressureQueue Nat).put 1).put 2).put 3).put
          4).put 5).items = [4, 5] ∧
      ((((((⟨3, [], 0⟩ : BackpressureQueue Nat).put 1).put 2).put 3).put
          4).put 5).dropped_frames = 3 := by
  have hput := BackpressureQueue.put_eq q x
  rw [hf] at hput
  simp only [if_pos] at hput
  refine ⟨by rw [hput], by rw [hput]; rfl, by decide, by decide⟩

/-- Witness for C1's amended theorem at a concrete full queue of capacity 2. -/
theorem C1_drop_all_witness :
    (((⟨2, [9, 8], 0⟩ : BackpressureQueue Nat).put 7).items = [7]) :=
  (C1_drop_all_next_get_returns_x (⟨2, [9, 8], 0⟩ : BackpressureQueue Nat) 7
    (by decide)).1

/-! ### Telemetry data records

Two distinct dataclasses named `TelemetryData` exist in the repository:

* `src/telemetry-processor/src/data_interface/telemetry_data.py` — fields
  `timestamp, sensor_id, value, unit, metadata` (the type the aggregator and
  the filters are written against);
* `src/common/common/data_interface/telemetry_data.py` — fields
  `timestamp, sensor_name, value, unit` (the class actually imported by
  `telemetry_processor.py` and `kalman_filter.py`).

`metadata` carries no structure the claims touch, so it is modelled as an
opaque optional unit. -/

structure TelemetryData where
  timestamp : ℚ
  sensor_id : String
  value : ℚ
  unit : Option String
  metadata : Option Unit
deriving Repr, DecidableEq

structure CommonTelemetryData where
  timestamp : ℚ
  sensor_name : String
  value : ℚ
  unit : Option String
deriving Repr, DecidableEq

/-! ### Python-semantics helpers: attribute access and keyword binding -/

inductive PyError where
  | attributeError (name : String)
  | typeError
  | valueError
  | validationError
deriving Repr, DecidableEq

/-- Python attribute access of a `str`-valued attribute on a
`common.data_interface.TelemetryData` instance (a plain dataclass: its only
attributes are its fields).  The sole string field is `sensor_name`; looking up
any other name raises `AttributeError`. -/
def CommonTelemetryData.getattrStr (d : CommonTelemetryData) (name : String) :
    Except PyError String :=
  if name = "sensor_name" then Except.ok d.sensor_name
  else Except.error (PyError.attributeError name)

/-- Python keyword-argument binding for a call made with keyword arguments
only: the call succeeds iff every supplied keyword names a parameter and every
parameter without a default is supplied; otherwise `TypeError`. -/
def pyKwargsBind (params : List String) (withDefault : List String)
    (kwargs : List String) : Bool :=
  kwargs.all (fun k => params.contains k) &&
    params.all (fun p => withDefault.contains p || kwargs.contains p)

/-! ### Time-window aggregator —
`src/telemetry-processor/src/aggregation/aggregator.py`

The per-sensor dicts `_buffers` and `_last_emit` are modelled as association
lists.  The `emit_callback` side effect is modelled by returning the emitted
`AggregationResult` (if any) next to the new aggregator state. -/

structure AggregationResult where
  sensor_id : String
  timestamp : ℚ
  count : Nat
  mean : ℚ
  min_value : ℚ
  max_value : ℚ
  unit : Option String
deriving Repr, DecidableEq

structure TimeWindowAggregator where
  window_duration_ms : ℚ
  buffers : List (String × List TelemetryData)
  last_emit : List (String × ℚ)
deriving Repr, DecidableEq

/-- Dictionary read: `d.get(k)` / `d[k]` / `k in d` on a Python dict modelled
as an insertion-ordered association list without duplicate keys. -/
def alistGet {β : Type} : List (String × β) → String → Option β
  | [], _ => none
  | p :: rest, k => if p.1 == k then some p.2 else alistGet rest k

/-- Dictionary write `d[k] = v`: replace the key's entry in place, or append a
new entry (Python dicts keep insertion order). -/
def alistSet {β : Type} : List (String × β) → String → β → List (String × β)
  | [], k, v => [(k, v)]
  | p :: rest, k, v =>
    if p.1 == k then (k, v) :: rest else p :: alistSet rest k v

/-- `TimeWindowAggregator._emit_aggregation` (lines 59-83): on a non-empty
buffer, build the `AggregationResult` over the buffered values, invoke the emit
callback (here: return the result), clear the buffer and set the sensor's
`last_emit` to `current_time`.  An empty buffer returns with no change; a
missing key cannot occur on the call path from `add`. -/
def TimeWindowAggregator.emitAggregation (agg : TimeWindowAggregator)
    (sensor_id : String) (current_time : ℚ) :
    TimeWindowAggregator × Option AggregationResult :=
  match alistGet agg.buffers sensor_id with
  | none => (agg, none)
  | some [] => (agg, none)
  | some (d :: ds) =>
    let values := (d :: ds).map (fun x => x.value)
    let result : AggregationResult :=
      { sensor_id := sensor_id
        timestamp := current_time
        count := values.length
        mean := values.sum / (values.length : ℚ)
        min_value := ds.foldl (fun a x => min a x.value) d.value
        max_value := ds.foldl (fun a x => max a x.value) d.value
        unit := d.unit }
    ({ agg with
        buffers := alistSet agg.buffers sensor_id []
        last_emit := alistSet agg.last_emit sensor_id current_time },
      some result)

/-- `TimeWindowAggregator.add` (lines 44-57): ensure the sensor's buffer and
`last_emit` exist (a new sensor's `last_emit` starts at its first sample's
timestamp), append the sample to the buffer, then — if
`(data.timestamp - last_emit) * 1000 >= window_duration_ms` — emit. -/
def TimeWindowAggregator.add (agg : TimeWindowAggregator)
    (data : TelemetryData) :
    TimeWindowAggregator × Option AggregationResult :=
  let sensor_id := data.sensor_id
  let agg1 :=
    if (alistGet agg.buffers sensor_id).isNone then
      { agg with
          buffers := alistSet agg.buffers sensor_id []
          last_emit := alistSet agg.last_emit sensor_id data.timestamp }
    else agg
  let buf := (alistGet agg1.buffers sensor_id).getD []
  let agg2 :=
    { agg1 with buffers := alistSet agg1.buffers sensor_id (buf ++ [data]) }
  let lastEmit := (alistGet agg2.last_emit sensor_id).getD data.timestamp
  let elapsed := (data.timestamp - lastEmit) * 1000
  if agg2.window_duration_ms ≤ elapsed then
    agg2.emitAggregation sensor_id data.timestamp
  else (agg2, none)

/-- Running a list of samples through the aggregator, collecting the emit
callback's argument (if any) for each `add`. -/
def TimeWindowAggregator.addAll (agg : TimeWindowAggregator) :
    List TelemetryData →
      TimeWindowAggregator × List (Option AggregationResult)
  | [] => (agg, [])
  | d :: ds =>
    let r := agg.add d
    let rest := r.1.addAll ds
    (rest.1, r.2 :: rest.2)

theorem alistGet_set_self {β : Type} (l : List (String × β)) (k : String)
    (v : β) : alistGet (alistSet l k v) k = some v := by
  induction l with
  | nil => simp [alistGet, alistSet]
  | cons p rest ih =>
    by_cases hp : p.1 == k
    · simp [alistGet, alistSet, hp]
    · simp [alistGet, alistSet, hp, ih]

theorem alistGet_set_ne {β : Type} (l : List (String × β)) {k k' : String}
    (hne : k' ≠ k) (v : β) : alistGet (alistSet l k v) k' = alistGet l k' := by
  induction l with
  | nil =>
    simp only [alistSet, alistGet]
    rw [if_neg (by simpa using fun h => hne h.symm)]
  | cons p rest ih =>
    by_cases hp : p.1 == k
    · have hpk : p.1 = k := by simpa using hp
      simp only [alistSet, hp, if_pos, alistGet]
      rw [if_neg (by simpa using fun h => hne h.symm),
        if_neg (by rw [hpk]; simpa using fun h => hne h.symm)]
    · simp only [alistSet, hp, Bool.false_eq_true, if_neg, alistGet]
      by_cases hpk' : p.1 == k'
      · simp [hpk']
      · simp [hpk', ih]

theorem emitAggregation_spec (agg : TimeWindowAggregator) (sid : String)
    (t : ℚ) (b : TelemetryData) (bs : List TelemetryData)
    (h : alistGet agg.buffers sid = some (b :: bs)) :
    agg.emitAggregation sid t =
      ({ agg with buffers := alistSet agg.buffers sid []
                  last_emit := alistSet agg.last_emit sid t },
        some { sensor_id := sid
               timestamp := t
               count := (b :: bs).length
               mean := (((b :: bs).map (fun x => x.value)).sum /
                 (((b :: bs).length : ℕ) : ℚ))
               min_value := bs.foldl (fun a x => min a x.value) b.value
               max_value := bs.foldl (fun a x => max a x.value) b.value
               unit := b.unit }) := by
  unfold TimeWindowAggregator.emitAggregation
  rw [h]
  simp

/-- On the emitting path, `add` appends the sample first and only then calls
`_emit_aggregation` — so the emitted aggregate covers the triggering sample. -/
theorem add_emit_spec (agg : TimeWindowAggregator) (data : TelemetryData)
    (buf : List TelemetryData) (le : ℚ)
    (hb : alistGet agg.buffers data.sensor_id = some buf)
    (hl : alistGet agg.last_emit data.sensor_id = some le)
    (hw : agg.window_duration_ms ≤ (data.timestamp - le) * 1000) :
    agg.add data =
      TimeWindowAggregator.emitAggregation
        { agg with
            buffers := alistSet agg.buffers data.sensor_id (buf ++ [data]) }
        data.sensor_id data.timestamp := by
  simp only [TimeWindowAggregator.add, hb, Option.isNone_some,
    Bool.false_eq_true, if_false, Option.getD_some, hl]
  rw [if_pos hw]

/-! #### Scenario S2 (`window_ms = 100`, adds at 0.00, 0.04, 0.09, 0.11) -/

def s2d1 : TelemetryData := ⟨0, "velocity_x", 1, none, none⟩

def s2d2 : TelemetryData := ⟨4 / 100, "velocity_x", 3, none, none⟩

def s2d3 : TelemetryData := ⟨9 / 100, "velocity_x", 5, none, none⟩

def s2d4 : TelemetryData := ⟨11 / 100, "velocity_x", 7, none, none⟩

def s2Adds : List TelemetryData := [s2d1, s2d2, s2d3, s2d4]

/-- The aggregator state reached after the first three adds of S2. -/
def s2Agg3 : TimeWindowAggregator :=
  ⟨100, [("velocity_x", [s2d1, s2d2, s2d3])], [("velocity_x", 0)]⟩

/-- C2 counterexample: in scenario S2 the first emit does occur at the 4th add
with timestamp `0.11`, the buffer is cleared and `last_emit = 0.11` — but the
emitted mean is `(1+3+5+7)/4 = 4.0`, not `3.0`: `add` appends the triggering
sample to the buffer *before* the window check, so the emitted mean covers it. -/
theorem C2_counterexample :
    ((TimeWindowAggregator.addAll ⟨100, [], []⟩ s2Adds).2.map
        (fun o => o.map AggregationResult.mean)) =
      [none, none, none, some 4] ∧
    ¬(((TimeWindowAggregator.addAll ⟨100, [], []⟩ s2Adds).2.map
        (fun o => o.map AggregationResult.mean)) =
      [none, none, none, some 3]) ∧
    ((TimeWindowAggregator.addAll ⟨100, [], []⟩ s2Adds).2.map
        (fun o => o.map AggregationResult.timestamp)) =
      [none, none, none, some (11 / 100)] ∧
    (TimeWindowAggregator.addAll ⟨100, [], []⟩ s2Adds).1.buffers =
      [("velocity_x", [])] ∧
    (TimeWindowAggregator.addAll ⟨100, [], []⟩ s2Adds).1.last_emit =
      [("velocity_x", 11 / 100)] := by
  norm_num [s2Adds, s2d1, s2d2, s2d3, s2d4, TimeWindowAggregator.addAll,
    TimeWindowAggregator.add, TimeWindowAggregator.emitAggregation,
    alistGet, alistSet]

/-- C2 (amended): on each `add(sample)` with the sensor already known, if
`(sample.ts − last_emit_ts[sensor]) · 1000 ≥ window_ms` the aggregator first
appends the triggering sample and then emits an `AggregationResult` whose mean
is the mean of the buffered values *including* the triggering sample, with
`timestamp = sample.ts`; it clears that sensor's buffer and sets
`last_emit_ts[sensor] = sample.ts`.  (The sample is appended in every case,
not only when no emit happens; in S2 the first emit is at the 4th add with
mean `4.0`, timestamp `0.11`, buffer cleared, last_emit `0.11`.) -/
theorem C2_emit_includes_triggering_sample (agg : TimeWindowAggregator)
    (data : TelemetryData) (buf : List TelemetryData) (le : ℚ)
    (hb : alistGet agg.buffers data.sensor_id = some buf)
    (hl : alistGet agg.last_emit data.sensor_id = some le)
    (hw : agg.window_duration_ms ≤ (data.timestamp - le) * 1000) :
    ∃ r : AggregationResult,
      (agg.add data).2 = some r ∧
      r.mean =
        ((buf ++ [data]).map (fun x => x.value)).sum / ((buf.length : ℚ) + 1) ∧
      r.timestamp = data.timestamp ∧
      r.count = buf.length + 1 ∧
      alistGet (agg.add data).1.buffers data.sensor_id = some [] ∧
      alistGet (agg.add data).1.last_emit data.sensor_id =
        some data.timestamp := by
  rw [add_emit_spec agg data buf le hb hl hw]
  have hb2 : alistGet
      (alistSet agg.buffers data.sensor_id (buf ++ [data])) data.sensor_id =
      some (buf ++ [data]) := alistGet_set_self _ _ _
  cases buf with
  | nil =>
    rw [emitAggregation_spec _ data.sensor_id data.timestamp data []
      (by simpa using hb2)]
    refine ⟨_, rfl, ?_, rfl, by simp, ?_, ?_⟩
    · norm_num
    · simpa using alistGet_set_self _ data.sensor_id ([] : List TelemetryData)
    · simpa using alistGet_set_self _ data.sensor_id data.timestamp
  | cons b bs =>
    rw [emitAggregation_spec _ data.sensor_id data.timestamp b (bs ++ [data])
      (by simpa using hb2)]
    refine ⟨_, rfl, ?_, rfl, by simp, ?_, ?_⟩
    · simp only [List.cons_append, List.map_cons, List.length_cons,
        List.length_append, List.length_cons, List.length_nil]
      push_cast
      ring_nf
    · simpa using alistGet_set_self _ data.sensor_id ([] : List TelemetryData)
    · simpa using alistGet_set_self _ data.sensor_id data.timestamp

/-- Witness for the amended C2 at the 4th add of scenario S2. -/
theorem C2_emit_witness :
    ∃ r : AggregationResult,
      (s2Agg3.add s2d4).2 = some r ∧
      r.mean =
        (([s2d1, s2d2, s2d3] ++ [s2d4]).map (fun x => x.value)).sum /
          (([s2d1, s2d2, s2d3].length : ℚ) + 1) ∧
      r.timestamp = s2d4.timestamp ∧
      r.count = [s2d1, s2d2, s2d3].length + 1 ∧
      alistGet (s2Agg3.add s2d4).1.buffers s2d4.sensor_id = some [] ∧
      alistGet (s2Agg3.add s2d4).1.last_emit s2d4.sensor_id =
        some s2d4.timestamp :=
  C2_emit_includes_triggering_sample s2Agg3 s2d4 [s2d1, s2d2, s2d3] 0
    (by simp [s2Agg3, s2d4, alistGet])
    (by simp [s2Agg3, s2d4, alistGet])
    (by norm_num [s2Agg3, s2d4])

/-! ### Kalman filter — `src/telemetry-processor/src/filters/kalman_filter.py`

`KalmanFilter.__init__` stores `q, r, x, p` and remembers the initial
estimate/error for `reset`.  `apply` does the textbook scalar Kalman step —
but its return statement constructs `TelemetryData(timestamp=…, sensor_id=…,
value=float(self.x), unit=…, metadata=…)`, and the `TelemetryData` imported by
`kalman_filter.py` (`from common.data_interface import TelemetryData`) is the
*common* dataclass with fields `timestamp, sensor_name, value, unit`: the
keyword binding of that call fails with `TypeError`. -/

structure KalmanFilter where
  q : ℚ
  r : ℚ
  x : ℚ
  p : ℚ
  initial_estimate : ℚ
  initial_error : ℚ
  initialized : Bool
deriving Repr, DecidableEq

/-- `KalmanFilter.__init__(process_variance, measurement_variance,
initial_estimate, initial_error)`. -/
def KalmanFilter.make (process_variance measurement_variance initial_estimate
    initial_error : ℚ) : KalmanFilter :=
  { q := process_variance
    r := measurement_variance
    x := initial_estimate
    p := initial_error
    initial_estimate := initial_estimate
    initial_error := initial_error
    initialized := false }

/-- The default construction `KalmanFilter()` with `Q = 1e-5`, `R = 1e-2`,
`x0 = 0`, `P0 = 1` (the S1 parameters). -/
def kalmanDefault : KalmanFilter := KalmanFilter.make (1 / 100000) (1 / 100) 0 1

/-- The parameter names of `common.data_interface.TelemetryData.__init__`
(dataclass fields), and which of them carry defaults. -/
def commonTelemetryDataParams : List String :=
  ["timestamp", "sensor_name", "value", "unit"]

def commonTelemetryDataDefaults : List String := ["unit"]

/-- The keywords used by the constructor call in `KalmanFilter.apply`
(lines 62-68). -/
def kalmanReturnKwargs : List String :=
  ["timestamp", "sensor_id", "value", "unit", "metadata"]

/-- `KalmanFilter.apply` (lines 35-68), specialised by Python duck typing to
an input of the processor-local dataclass (fields `timestamp, sensor_id,
value, unit, metadata` — every attribute read in `apply` succeeds).  On the
first sample the state is set to the measurement, the filter is marked
initialized and the *input* object is returned unchanged.  On every later
sample the scalar Kalman step updates `self.x`, `self.p`, and then the return
statement's keyword binding against the common `TelemetryData` fails:
`TypeError` is raised after the state update.  The first component of the
result is the mutated filter, the second the returned value or the raised
error. -/
def KalmanFilter.applyPy (kf : KalmanFilter) (data : TelemetryData) :
    KalmanFilter × Except PyError TelemetryData :=
  let measurement := data.value
  if kf.initialized = false then
    ({ kf with x := measurement, initialized := true }, Except.ok data)
  else
    let x_pred := kf.x
    let p_pred := kf.p + kf.q
    let k := p_pred / (p_pred + kf.r)
    let x' := x_pred + k * (measurement - x_pred)
    let p' := (1 - k) * p_pred
    let kf' := { kf with x := x', p := p' }
    if pyKwargsBind commonTelemetryDataParams commonTelemetryDataDefaults
        kalmanReturnKwargs then
      (kf', Except.ok { data with timestamp := data.timestamp, value := x' })
    else
      (kf', Except.error PyError.typeError)

/-! #### Scenario S1: feeding values 10, 20, 30 -/

def s1Kf1 : KalmanFilter × Except PyError TelemetryData :=
  kalmanDefault.applyPy ⟨0, "depth", 10, none, none⟩

def s1Kf2 : KalmanFilter × Except PyError TelemetryData :=
  s1Kf1.1.applyPy ⟨1, "depth", 20, none, none⟩

def s1Kf3 : KalmanFilter × Except PyError TelemetryData :=
  s1Kf2.1.applyPy ⟨2, "depth", 30, none, none⟩

/-- C3 (code bug): the first `apply` sets the state to the measurement, marks
the filter initialized and returns the input sample; but every subsequent
`apply` raises `TypeError` instead of returning the filtered sample — the
constructor call in its return statement passes keywords `sensor_id` and
`metadata` that the imported common `TelemetryData` (field `sensor_name`)
does not accept.  The internal state `x̂` *is* updated by the textbook scalar
step first, and on the S1 inputs `[10, 20, 30]` that state is strictly
monotone and stays below the raw measurements (`x̂₂ = 2010020/101001 ≈ 19.9`),
exactly as the claim expects of the outputs that are never returned. -/
theorem C3_kalman_apply_raises_after_update :
    s1Kf1.2 = Except.ok ⟨0, "depth", 10, none, none⟩ ∧
    s1Kf1.1.x = 10 ∧ s1Kf1.1.initialized = true ∧
    s1Kf2.2 = Except.error PyError.typeError ∧
    s1Kf3.2 = Except.error PyError.typeError ∧
    s1Kf2.1.x = 2010020 / 101001 ∧
    10 < s1Kf2.1.x ∧ s1Kf2.1.x < 20 ∧
    s1Kf2.1.x < s1Kf3.1.x ∧ s1Kf3.1.x < 30 := by
  have hbind : pyKwargsBind commonTelemetryDataParams
      commonTelemetryDataDefaults kalmanReturnKwargs = false := by decide
  norm_num [s1Kf1, s1Kf2, s1Kf3, kalmanDefault, KalmanFilter.make,
    KalmanFilter.applyPy, hbind]

/-! ### MQTT publisher — `src/common/common/mqtt/publisher.py`

`publish` (lines 32-49) runs inside one `try`: look up the schema for the
configured topic (`raise ValueError` when there is none), call
`jsonschema.validate` (raises `jsonschema.ValidationError` on an invalid
message), then `json.dumps` the message and hand the payload to
`self.client.publish`.  `except jsonschema.ValidationError` logs the
validation failure; the generic `except Exception` logs anything else; in
either case nothing is sent.  The external collaborators are parameters of
the model: the schema table as the `Option Schema` the topic lookup returns,
the validation engine as a boolean predicate, `json.dumps` as `serialize`. -/

structure PublishResult where
  sent : List String
  validationErrorLogged : Bool
  otherErrorLogged : Bool
deriving Repr, DecidableEq

/-- The `jsonschema.validate` call: raises `ValidationError` iff the engine
rejects the message. -/
def jsonschemaValidate {Schema Msg : Type} (valid : Schema → Msg → Bool)
    (schema : Schema) (message : Msg) : Except PyError Unit :=
  if valid schema message then Except.ok () else
    Except.error PyError.validationError

/-- The body of the `try` block of `MQTTPublisher.publish`. -/
def MQTTPublisher.publishTry {Msg Schema : Type}
    (schemaForTopic : Option Schema) (valid : Schema → Msg → Bool)
    (serialize : Msg → String) (message : Msg) : Except PyError String :=
  match schemaForTopic with
  | none => Except.error PyError.valueError
  | some schema =>
    match jsonschemaValidate valid schema message with
    | Except.error e => Except.error e
    | Except.ok _ => Except.ok (serialize message)

/-- `MQTTPublisher.publish` with its two `except` handlers: a caught
`ValidationError` is logged and nothing is sent; any other exception is logged
by the generic handler and nothing is sent; otherwise exactly the serialized
payload is handed to the broker client. -/
def MQTTPublisher.publish {Msg Schema : Type}
    (schemaForTopic : Option Schema) (valid : Schema → Msg → Bool)
    (serialize : Msg → String) (message : Msg) : PublishResult :=
  match MQTTPublisher.publishTry schemaForTopic valid serialize message with
  | Except.ok payload =>
    { sent := [payload], validationErrorLogged := false,
      otherErrorLogged := false }
  | Except.error PyError.validationError =>
    { sent := [], validationErrorLogged := true, otherErrorLogged := false }
  | Except.error _ =>
    { sent := [], validationErrorLogged := false, otherErrorLogged := true }

/-- C4: Schema-gated publishing.  Whatever is sent is the serialization of the
message and only after the topic's schema validated it; a message that fails
validation sends nothing and logs the validation error; a valid message is
serialized and sent; a missing schema sends nothing and is logged by the
generic handler.  In particular no packet that fails validation is ever
published after the failure is detected. -/
theorem C4_schema_gated_publish {Msg Schema : Type}
    (schemaForTopic : Option Schema) (valid : Schema → Msg → Bool)
    (serialize : Msg → String) (message : Msg) :
    (∀ payload,
        payload ∈
          (MQTTPublisher.publish schemaForTopic valid serialize message).sent →
        payload = serialize message ∧
          ∃ s, schemaForTopic = some s ∧ valid s message = true) ∧
    (∀ s, schemaForTopic = some s → valid s message = false →
        (MQTTPublisher.publish schemaForTopic valid serialize message).sent =
            [] ∧
          (MQTTPublisher.publish schemaForTopic valid serialize
              message).validationErrorLogged = true) ∧
    (∀ s, schemaForTopic = some s → valid s message = true →
        (MQTTPublisher.publish schemaForTopic valid serialize message).sent =
          [serialize message]) ∧
    (schemaForTopic = none →
        (MQTTPublisher.publish schemaForTopic valid serialize message).sent =
            [] ∧
          (MQTTPublisher.publish schemaForTopic valid serialize
              message).otherErrorLogged = true) := by
  cases schemaForTopic with
  | none =>
    refine ⟨?_, ?_, ?_, ?_⟩
    · intro payload hp
      simp [MQTTPublisher.publish, MQTTPublisher.publishTry] at hp
    · intro s hs
      exact absurd hs (by simp)
    · intro s hs
      exact absurd hs (by simp)
    · intro _
      constructor <;>
        simp [MQTTPublisher.publish, MQTTPublisher.publishTry]
  | some s0 =>
    by_cases hv : valid s0 message
    · refine ⟨?_, ?_, ?_, ?_⟩
      · intro payload hp
        simp [MQTTPublisher.publish, MQTTPublisher.publishTry,
          jsonschemaValidate, hv] at hp
        exact ⟨hp, s0, rfl, hv⟩
      · intro s hs hvf
        rw [Option.some_inj] at hs
        rw [← hs] at hvf
        rw [hv] at hvf
        exact absurd hvf (by simp)
      · intro s hs _
        simp [MQTTPublisher.publish, MQTTPublisher.publishTry,
          jsonschemaValidate, hv]
      · intro h
        exact absurd h (by simp)
    · have hv' : valid s0 message = false := by
        simpa using hv
      refine ⟨?_, ?_, ?_, ?_⟩
      · intro payload hp
        simp [MQTTPublisher.publish, MQTTPublisher.publishTry,
          jsonschemaValidate, hv'] at hp
      · intro s hs _
        constructor <;>
          simp [MQTTPublisher.publish, MQTTPublisher.publishTry,
            jsonschemaValidate, hv']
      · intro s hs hvt
        rw [Option.some_inj] at hs
        rw [← hs] at hvt
        rw [hv'] at hvt
        exact absurd hvt (by simp)
      · intro h
        exact absurd h (by simp)

/-! ### Telemetry processor — `src/telemetry-processor/src/telemetry_processor.py`

The processor imports the *common* `TelemetryData` (line 18) and builds its
samples with `sensor_name=`; the aggregator and the Kalman filter read
`data.sensor_id`.  The models below are `apply`/`add` specialised by Python
duck typing to the common-dataclass input the processor actually passes. -/

/-- `TimeWindowAggregator.add` as reached from the processor with a *common*
`TelemetryData` argument: its first statement `sensor_id = data.sensor_id`
(line 46) raises `AttributeError` on that dataclass.  Were the lookup to
succeed, the rest of `add` (lines 48-57) would behave as
`TimeWindowAggregator.add` on the local dataclass. -/
def TimeWindowAggregator.addCommon (agg : TimeWindowAggregator)
    (data : CommonTelemetryData) :
    Except PyError (TimeWindowAggregator × Option AggregationResult) :=
  match data.getattrStr "sensor_id" with
  | Except.error e => Except.error e
  | Except.ok sid =>
    Except.ok (agg.add { timestamp := data.timestamp, sensor_id := sid,
                         value := data.value, unit := data.unit,
                         metadata := none })

/-- `KalmanFilter.apply` specialised by duck typing to a *common*
`TelemetryData` input (what the processor feeds it): the first-sample branch
returns the input unchanged; every later sample updates the state and then
evaluates `data.sensor_id` (line 64) among the return constructor's arguments
— `AttributeError` on the common dataclass, raised after the state update (the
constructor call itself, whose keyword binding would raise `TypeError`, is
never reached because its arguments are evaluated first). -/
def KalmanFilter.applyCommon (kf : KalmanFilter) (data : CommonTelemetryData) :
    KalmanFilter × Except PyError CommonTelemetryData :=
  let measurement := data.value
  if kf.initialized = false then
    ({ kf with x := measurement, initialized := true }, Except.ok data)
  else
    let x_pred := kf.x
    let p_pred := kf.p + kf.q
    let k := p_pred / (p_pred + kf.r)
    let x' := x_pred + k * (measurement - x_pred)
    let p' := (1 - k) * p_pred
    let kf' := { kf with x := x', p := p' }
    match data.getattrStr "sensor_id" with
    | Except.error e => (kf', Except.error e)
    | Except.ok _ =>
      if pyKwargsBind commonTelemetryDataParams commonTelemetryDataDefaults
          kalmanReturnKwargs then (kf', Except.ok data)
      else (kf', Except.error PyError.typeError)

/-- The loop body of `apply_filters` over one sensor's configured chain (only
`KalmanFilter`s are ever configured, `_setup_components` lines 89-100).
Filter-state mutations persist even when a later filter raises. -/
def applyFiltersChain : List KalmanFilter → CommonTelemetryData →
    List KalmanFilter × Except PyError CommonTelemetryData
  | [], d => ([], Except.ok d)
  | f :: fs, d =>
    match f.applyCommon d with
    | (f', Except.error e) => (f' :: fs, Except.error e)
    | (f', Except.ok d') =>
      let rest := applyFiltersChain fs d'
      (f' :: rest.1, rest.2)

/-- One entry of the latest-state map `telemetry_state`
(`{"value": …, "unit": …, "timestamp": …}`, lines 172-176). -/
structure StateEntry where
  value : ℚ
  unit : Option String
  timestamp : ℚ
deriving Repr, DecidableEq

/-- The processor state `handle_low_high_frequency` touches. -/
structure ProcState where
  filters : List (String × List KalmanFilter)
  aggregator : TimeWindowAggregator
  telemetry_state : List (String × StateEntry)
  high_freq_sensors : List String
deriving Repr, DecidableEq

/-- `TelemetryProcessor.apply_filters` (lines 178-183): run the sensor's chain
if one is configured, else return the data unchanged. -/
def ProcState.apply_filters (ps : ProcState) (sensor_name : String)
    (data : CommonTelemetryData) :
    ProcState × Except PyError CommonTelemetryData :=
  match alistGet ps.filters sensor_name with
  | none => (ps, Except.ok data)
  | some chain =>
    let r := applyFiltersChain chain data
    ({ ps with filters := alistSet ps.filters sensor_name r.1 }, r.2)

/-- Attribute access of a string-valued attribute on an `AggregationResult`
(dataclass fields `sensor_id, timestamp, count, mean, min_value, max_value,
unit`): the string-valued field is `sensor_id`. -/
def AggregationResult.getattrStr (r : AggregationResult) (name : String) :
    Except PyError String :=
  if name = "sensor_id" then Except.ok r.sensor_id
  else Except.error (PyError.attributeError name)

/-- `TelemetryProcessor._on_aggregation_ready` (lines 185-194): its first step
reads `result.sensor_name`, which `AggregationResult` (field `sensor_id`)
does not have — `AttributeError` before any write to the latest-state map.
(Never actually reached: `aggregator.add` raises first.) -/
def ProcState.on_aggregation_ready (ps : ProcState)
    (result : AggregationResult) : ProcState × Except PyError Unit :=
  match AggregationResult.getattrStr result "sensor_name" with
  | Except.error e => (ps, Except.error e)
  | Except.ok sname =>
    let entry : StateEntry :=
      { value := result.mean, unit := result.unit,
        timestamp := result.timestamp }
    ({ ps with telemetry_state := alistSet ps.telemetry_state sname entry },
      Except.ok ())

/-- `TelemetryProcessor.handle_low_high_frequency` (lines 152-176).  The
`nested_props` schema dict is abstracted to whether it has a `"value"`
property and to the unit string its `"unit"` property yields (`const`, else
first `enum` entry, else `""`).  The sample is built with the *common*
`TelemetryData` (import at line 18), so the `sensor_name=` construction at
lines 157-163 succeeds; the second result component reports a raised
exception, with the first component the state at the moment of the raise. -/
def ProcState.handle_low_high_frequency (ps : ProcState) (hasValue : Bool)
    (unit : String) (prop_name : String) (value : ℚ) (now : ℚ) :
    ProcState × Except PyError Unit :=
  if hasValue = false then (ps, Except.ok ())
  else
    let d : CommonTelemetryData :=
      { timestamp := now, sensor_name := prop_name, value := value,
        unit := some unit }
    match ps.apply_filters prop_name d with
    | (ps1, Except.error e) => (ps1, Except.error e)
    | (ps1, Except.ok d') =>
      let value := d'.value
      if ps1.high_freq_sensors.contains prop_name then
        let td : CommonTelemetryData :=
          { timestamp := now, sensor_name := prop_name, value := value,
            unit := some unit }
        match ps1.aggregator.addCommon td with
        | Except.error e => (ps1, Except.error e)
        | Except.ok (agg', _) =>
          ({ ps1 with aggregator := agg' }, Except.ok ())
      else
        let entry : StateEntry :=
          { value := value, unit := some unit, timestamp := now }
        ({ ps1 with telemetry_state :=
            alistSet ps1.telemetry_state prop_name entry },
          Except.ok ())

theorem getattrStr_sensor_id (d : CommonTelemetryData) :
    d.getattrStr "sensor_id" =
      Except.error (PyError.attributeError "sensor_id") := by
  simp [CommonTelemetryData.getattrStr]

theorem addCommon_raises (agg : TimeWindowAggregator)
    (td : CommonTelemetryData) :
    agg.addCommon td = Except.error (PyError.attributeError "sensor_id") := by
  unfold TimeWindowAggregator.addCommon
  rw [getattrStr_sensor_id]

theorem applyCommon_cases (f : KalmanFilter) (d : CommonTelemetryData) :
    (f.applyCommon d).2 = Except.ok d ∨
      (f.applyCommon d).2 =
        Except.error (PyError.attributeError "sensor_id") := by
  unfold KalmanFilter.applyCommon
  by_cases hi : f.initialized = false
  · rw [if_pos hi]
    exact Or.inl rfl
  · rw [if_neg hi]
    right
    rw [getattrStr_sensor_id]

theorem applyFiltersChain_result (chain : List KalmanFilter)
    (d : CommonTelemetryData) :
    (applyFiltersChain chain d).2 = Except.ok d ∨
      (applyFiltersChain chain d).2 =
        Except.error (PyError.attributeError "sensor_id") := by
  induction chain generalizing d with
  | nil => exact Or.inl rfl
  | cons f fs ih =>
    unfold applyFiltersChain
    rcases hc : f.applyCommon d with ⟨f', r⟩
    have hcase := applyCommon_cases f d
    rw [hc] at hcase
    cases r with
    | error e =>
      rcases hcase with h | h
      · exact absurd h (by simp)
      · right
        simp only at h ⊢
        exact h
    | ok d' =>
      rcases hcase with h | h
      · simp only at h
        rw [Except.ok.injEq] at h
        rw [h]
        simpa using ih d
      · exact absurd h (by simp)

theorem apply_filters_spec (ps : ProcState) (n : String)
    (d : CommonTelemetryData) :
    ((ps.apply_filters n d).2 = Except.ok d ∨
      (ps.apply_filters n d).2 =
        Except.error (PyError.attributeError "sensor_id")) ∧
    (ps.apply_filters n d).1.telemetry_state = ps.telemetry_state ∧
    (ps.apply_filters n d).1.high_freq_sensors = ps.high_freq_sensors ∧
    (ps.apply_filters n d).1.aggregator = ps.aggregator := by
  unfold ProcState.apply_filters
  cases alistGet ps.filters n with
  | none => exact ⟨Or.inl rfl, rfl, rfl, rfl⟩
  | some chain => exact ⟨applyFiltersChain_result chain d, rfl, rfl, rfl⟩

/-- C6: routing a projected sample of a high-frequency sensor raises
`AttributeError` and leaves the latest-state map unchanged.  The processor
builds a *common* `TelemetryData` (field `sensor_name`) and hands it to
`TimeWindowAggregator.add`, whose first statement reads `data.sensor_id`
(lines 44-46); a configured Kalman filter past its first sample reads
`data.sensor_id` (line 64) and raises the same way.  Moreover the emit
callback `_on_aggregation_ready` reads `result.sensor_name` while
`AggregationResult` declares `sensor_id`, so it too could only raise (third
conjunct).  Hence no high-frequency sensor's aggregate is ever written into
the latest-state map. -/
theorem C6_high_freq_routing_attribute_error (ps : ProcState) (unit : String)
    (prop_name : String) (value now : ℚ)
    (hhf : ps.high_freq_sensors.contains prop_name = true) :
    (ps.handle_low_high_frequency true unit prop_name value now).2 =
        Except.error (PyError.attributeError "sensor_id") ∧
      (ps.handle_low_high_frequency true unit prop_name value
          now).1.telemetry_state = ps.telemetry_state ∧
      (∀ r : AggregationResult, AggregationResult.getattrStr r "sensor_name" =
        Except.error (PyError.attributeError "sensor_name")) := by
  have haggattr : ∀ r : AggregationResult,
      AggregationResult.getattrStr r "sensor_name" =
        Except.error (PyError.attributeError "sensor_name") := by
    intro r
    simp [AggregationResult.getattrStr]
  unfold ProcState.handle_low_high_frequency
  rw [if_neg (by simp)]
  dsimp only
  have hspec := apply_filters_spec ps prop_name
    ⟨now, prop_name, value, some unit⟩
  rcases hfr : ps.apply_filters prop_name ⟨now, prop_name, value, some unit⟩
    with ⟨ps1, r⟩
  rw [hfr] at hspec
  obtain ⟨hres, hts, hhfs, -⟩ := hspec
  simp only at hts hhfs
  cases r with
  | error e =>
    rcases hres with h | h
    · exact absurd h (by simp)
    · simp only [Except.error.injEq] at h
      refine ⟨?_, ?_, haggattr⟩
      · simp only
        rw [h]
      · exact hts
  | ok d' =>
    simp only
    rw [hhfs, if_pos hhf, addCommon_raises]
    exact ⟨rfl, hts, haggattr⟩

/-- Witness for C6: a processor with `"depth"` configured high-frequency and
no filters, handling one projected `depth` sample. -/
theorem C6_high_freq_routing_witness :
    ((⟨[], ⟨100, [], []⟩, [], ["depth"]⟩ : ProcState).handle_low_high_frequency
        true "m" "depth" 5 1).2 =
        Except.error (PyError.attributeError "sensor_id") ∧
      ((⟨[], ⟨100, [], []⟩, [],
          ["depth"]⟩ : ProcState).handle_low_high_frequency
        true "m" "depth" 5 1).1.telemetry_state =
        ([] : List (String × StateEntry)) ∧
      (∀ r : AggregationResult, AggregationResult.getattrStr r "sensor_name" =
        Except.error (PyError.attributeError "sensor_name")) :=
  C6_high_freq_routing_attribute_error
    (⟨[], ⟨100, [], []⟩, [], ["depth"]⟩ : ProcState) "m" "depth" 5 1
    (by decide)

/-! ### `TelemetryProcessor.__init__` / `_setup_components` (C5)

`__init__` (lines 27-54) raises `ValueError` when `env` is `None` or `{}` or
when `load_schemas()` fails, then calls `_setup_components` (lines 56-110):
the receiver construction evaluates `NetworkEnum(input_network)` (an unknown
value raises `ValueError`), the topic's schema is looked up (`ValueError` when
missing), and then `MQTTPublisher` is invoked with keyword arguments
`broker_host=…, broker_port=…, username=…, password=…, client_id=…,
base_topic=…` (lines 80-87) against
`MQTTPublisher.__init__(self, tls_url, username, password, client_id,
base_topic)` — `broker_host` and `broker_port` are not parameters and
`tls_url` is not supplied, so the call raises `TypeError`. -/

/-- The parameters of `MQTTPublisher.__init__`
(`src/common/common/mqtt/publisher.py` lines 10-17), none with a default. -/
def mqttPublisherParams : List String :=
  ["tls_url", "username", "password", "client_id", "base_topic"]

def mqttPublisherDefaults : List String := []

/-- The keywords of the `MQTTPublisher(...)` call in `_setup_components`
(lines 80-87). -/
def setupPublisherKwargs : List String :=
  ["broker_host", "broker_port", "username", "password", "client_id",
   "base_topic"]

/-- The constructor path of `TelemetryProcessor`, with the external
collaborators abstracted to flags: `envNonempty` (line 28), `schemasLoad`
(`load_schemas()`, lines 47-53), `networkTypeValid`
(`NetworkEnum(input_network)`, line 66), `topicHasSchema`
(`get_schema_for_topic`, lines 73-75).  When every check passes, control
reaches the `MQTTPublisher(broker_host=…, broker_port=…, …)` call, whose
keyword binding decides the outcome. -/
def TelemetryProcessor.construct (envNonempty schemasLoad networkTypeValid
    topicHasSchema : Bool) : Except PyError Unit :=
  if envNonempty = false then Except.error PyError.valueError
  else if schemasLoad = false then Except.error PyError.valueError
  else if networkTypeValid = false then Except.error PyError.valueError
  else if topicHasSchema = false then Except.error PyError.valueError
  else if pyKwargsBind mqttPublisherParams mqttPublisherDefaults
      setupPublisherKwargs then Except.ok ()
  else Except.error PyError.typeError

/-- C5: constructing a `TelemetryProcessor` never returns normally.  Whatever
the configuration and environment, the constructor raises: `ValueError` on an
empty environment, failed schema load, invalid network type or missing topic
schema — and when everything earlier succeeds, the `MQTTPublisher` call's
keyword arguments `broker_host`/`broker_port` do not bind against
`__init__(tls_url, username, password, client_id, base_topic)`, so the
constructor raises `TypeError`. -/
theorem C5_constructor_always_raises (envNonempty schemasLoad networkTypeValid
    topicHasSchema : Bool) :
    TelemetryProcessor.construct envNonempty schemasLoad networkTypeValid
        topicHasSchema ≠ Except.ok () ∧
      (envNonempty = true → schemasLoad = true → networkTypeValid = true →
        topicHasSchema = true →
        TelemetryProcessor.construct envNonempty schemasLoad networkTypeValid
          topicHasSchema = Except.error PyError.typeError) := by
  have hbind : pyKwargsBind mqttPublisherParams mqttPublisherDefaults
      setupPublisherKwargs = false := by decide
  cases envNonempty <;> cases schemasLoad <;> cases networkTypeValid <;>
    cases topicHasSchema <;>
      simp [TelemetryProcessor.construct, hbind]

/-! ### Reconnect backoff — `src/video-processor/src/mpegts/mpegts_client.py`

`receive_mpegts_stream` (lines 223-262) keeps `consecutive_failures` and
`current_delay` (in seconds, starting at `base_delay_ms / 1000`).  On a
failure below the threshold, `_handle_failure` (lines 312-326) sleeps
`min(current_delay + jitter, max_delay_ms / 1000)` with
`jitter ~ U(0, 0.1 * current_delay)`, and the caller then doubles
`current_delay` capped at the maximum; at the threshold
(`consecutive_failures >= max_consecutive_failures`) it sleeps the extended
cooldown instead and both counters reset.  In addition, every iteration of
the loop ends in `finally: self._cleanup_after_stream(...)` (lines 261-262),
which — while `running` — unconditionally sleeps a further 2 seconds before
the next connection attempt (lines 336-338).  `base` and `mx` below are the
delays in seconds (`base_delay_ms / 1000`, `max_delay_ms / 1000`). -/

structure WSClient where
  cid : Nat
  closed : Bool
  sendRaises : Bool
deriving Repr, DecidableEq

/-- The send loop (lines 47-65): returns (delivered messages, clients marked
for removal), in iteration order. -/
def broadcastLoop (data : List Nat) :
    List WSClient → List (Nat × List Nat) × List Nat
  | [] => ([], [])
  | c :: rest =>
    let r := broadcastLoop data rest
    if c.closed then (r.1, c.cid :: r.2)
    else if c.sendRaises then (r.1, c.cid :: r.2)
    else ((c.cid, data) :: r.1, r.2)

structure BroadcastOutcome where
  clients : List WSClient
  delivered : List (Nat × List Nat)
  closeCalled : List Nat
deriving Repr, DecidableEq

/-- `WebSocketBroadcaster._broadcast_async` (lines 42-75): early return on an
empty client set; otherwise the send loop followed by the cleanup loop
(`discard` each marked client; `close()` best-effort when not already
closed).  Total — no exception escapes. -/
def broadcastAsync (clients : List WSClient) (data : List Nat) :
    BroadcastOutcome :=
  if clients.isEmpty then
    { clients := clients, delivered := [], closeCalled := [] }
  else
    let r := broadcastLoop data clients
    { clients := clients.filter (fun c => !(r.2.contains c.cid))
      delivered := r.1
      closeCalled :=
        (clients.filter (fun c => r.2.contains c.cid && !c.closed)).map
          (fun c => c.cid) }

theorem broadcastLoop_delivered_mem (data : List Nat)
    (clients : List WSClient) :
    ∀ p ∈ (broadcastLoop data clients).1,
      p.2 = data ∧ p.1 ∈ clients.map WSClient.cid := by
  induction clients with
  | nil => intro p hp; simp [broadcastLoop] at hp
  | cons c rest ih =>
    intro p hp
    unfold broadcastLoop at hp
    by_cases hc : c.closed
    · simp only [hc, if_true] at hp
      obtain ⟨h1, h2⟩ := ih p hp
      exact ⟨h1, by simp [h2]⟩
    · simp only [hc, Bool.false_eq_true, if_false] at hp
      by_cases hs : c.sendRaises
      · simp only [hs, if_true] at hp
        obtain ⟨h1, h2⟩ := ih p hp
        exact ⟨h1, by simp [h2]⟩
      · simp only [hs, Bool.false_eq_true, if_false] at hp
        rcases List.mem_cons.mp hp with h | h
        · subst h; exact ⟨rfl, by simp⟩
        · obtain ⟨h1, h2⟩ := ih p h
          exact ⟨h1, by simp [h2]⟩

theorem broadcastLoop_mark (data : List Nat) (clients : List WSClient)
    (c : WSClient) (hmem : c ∈ clients)
    (h : c.closed = true ∨ c.sendRaises = true) :
    c.cid ∈ (broadcastLoop data clients).2 := by
  induction clients with
  | nil => simp at hmem
  | cons d rest ih =>
    unfold broadcastLoop
    rcases List.mem_cons.mp hmem with he | hr
    · subst he
      rcases h with hc | hs
      · simp [hc]
      · by_cases hc : c.closed <;> simp [hc, hs]
    · have hrec := ih hr
      by_cases hc : d.closed
      · simp only [hc, if_true]
        exact List.mem_cons_of_mem _ hrec
      · simp only [hc, Bool.false_eq_true, if_false]
        by_cases hs : d.sendRaises
        · simp only [hs, if_true]
          exact List.mem_cons_of_mem _ hrec
        · simp only [hs, Bool.false_eq_true, if_false]
          exact hrec

theorem broadcastLoop_filter_nil (data : List Nat) (clients : List WSClient)
    (i : Nat) (hni : i ∉ clients.map WSClient.cid) :
    (broadcastLoop data clients).1.filter (fun p => p.1 == i) = [] := by
  rw [List.filter_eq_nil_iff]
  intro p hp
  obtain ⟨-, h2⟩ := broadcastLoop_delivered_mem data clients p hp
  simp only [beq_iff_eq]
  intro he
  exact hni (he ▸ h2)

theorem broadcastLoop_filter_one (data : List Nat) (clients : List WSClient)
    (c : WSClient) (hmem : c ∈ clients)
    (hnodup : (clients.map WSClient.cid).Nodup)
    (hc : c.closed = false) (hs : c.sendRaises = false) :
    (broadcastLoop data clients).1.filter (fun p => p.1 == c.cid) =
      [(c.cid, data)] := by
  induction clients with
  | nil => simp at hmem
  | cons d rest ih =>
    simp only [List.map_cons, List.nodup_cons] at hnodup
    obtain ⟨hd1, hd2⟩ := hnodup
    unfold broadcastLoop
    rcases List.mem_cons.mp hmem with he | hr
    · subst he
      simp only [hc, hs, Bool.false_eq_true, if_false]
      rw [List.filter_cons]
      simp only [beq_self_eq_true, if_true]
      rw [broadcastLoop_filter_nil data rest c.cid hd1]
    · have hdc : d.cid ≠ c.cid := by
        intro he
        exact hd1 (he ▸ List.mem_map_of_mem WSClient.cid hr)
      by_cases hdcl : d.closed
      · simp only [hdcl, if_true]
        exact ih hr hd2
      · simp only [hdcl, Bool.false_eq_true, if_false]
        by_cases hds : d.sendRaises
        · simp only [hds, if_true]
          exact ih hr hd2
        · simp only [hds, Bool.false_eq_true, if_false]
          rw [List.filter_cons]
          simp only [show ((d.cid, data).1 == c.cid) = false by
            simpa using hdc]
          rw [if_neg (by simp)]
          exact ih hr hd2

/-- C10: WebSocket fan-out error isolation.  For every client set (distinct
client identities, as in a Python `set`) and every chunk: each client whose
send raises (and that was not already closed) is removed from the set and has
`close()` called best-effort; each open client whose send does not raise
receives exactly one binary message equal to the input bytes; and everything
delivered equals the input bytes.  `broadcastAsync` is a total function — the
send loop catches every exception and the close is wrapped, so no send
failure propagates to the broadcast caller. -/
theorem C10_broadcast_error_isolation (clients : List WSClient)
    (data : List Nat) (hnodup : (clients.map WSClient.cid).Nodup) :
    (∀ c ∈ clients, c.sendRaises = true → c.closed = false →
        (∀ d ∈ (broadcastAsync clients data).clients, d.cid ≠ c.cid) ∧
        c.cid ∈ (broadcastAsync clients data).closeCalled) ∧
    (∀ c ∈ clients, c.sendRaises = false → c.closed = false →
        ((broadcastAsync clients data).delivered.filter
          (fun p => p.1 == c.cid)) = [(c.cid, data)]) ∧
    (∀ p ∈ (broadcastAsync clients data).delivered, p.2 = data) := by
  by_cases hne : clients.isEmpty
  · have hcl : clients = [] := List.isEmpty_iff.mp hne
    subst hcl
    refine ⟨?_, ?_, ?_⟩ <;> intro c hc <;> simp [broadcastAsync] at hc
  · unfold broadcastAsync
    rw [if_neg hne]
    refine ⟨?_, ?_, ?_⟩
    · intro c hcmem hraise hopen
      have hmark := broadcastLoop_mark data clients c hcmem (Or.inr hraise)
      constructor
      · intro d hd
        rw [List.mem_filter] at hd
        obtain ⟨-, hd2⟩ := hd
        intro he
        rw [Bool.not_eq_eq_eq_not, Bool.not_true] at hd2
        rw [he] at hd2
        rw [List.contains_eq_any_beq] at hd2
        simp at hd2
        exact hd2 c.cid hmark rfl
      · simp only
        refine List.mem_map_of_mem WSClient.cid ?_
        rw [List.mem_filter]
        refine ⟨hcmem, ?_⟩
        rw [Bool.and_eq_true]
        constructor
        · exact List.elem_eq_true_of_mem hmark
        · simp [hopen]
    · intro c hcmem hraise hopen
      exact broadcastLoop_filter_one data clients c hcmem hnodup hopen hraise
    · intro p hp
      exact (broadcastLoop_delivered_mem data clients p hp).1

/-! #### Scenario S5: three clients, one throwing -/

def s5Clients : List WSClient :=
  [⟨1, false, false⟩, ⟨2, false, true⟩, ⟨3, false, false⟩]

def s5Data : List Nat := [13, 16]

/-- Witness for C10 at scenario S5. -/
theorem C10_broadcast_witness :
    (∀ c ∈ s5Clients, c.sendRaises = true → c.closed = false →
        (∀ d ∈ (broadcastAsync s5Clients s5Data).clients, d.cid ≠ c.cid) ∧
        c.cid ∈ (broadcastAsync s5Clients s5Data).closeCalled) ∧
    (∀ c ∈ s5Clients, c.sendRaises = false → c.closed = false →
        ((broadcastAsync s5Clients s5Data).delivered.filter
          (fun p => p.1 == c.cid)) = [(c.cid, s5Data)]) ∧
    (∀ p ∈ (broadcastAsync s5Clients s5Data).delivered, p.2 = s5Data) :=
  C10_broadcast_error_isolation s5Clients s5Data (by decide)
